import Mathlib

/-!
Shallow embedding of `src/tools/render-test/slang-support.cpp` (namespace
`renderer_test`): the shader-test compile adapter built around
`ShaderCompilerUtil::compileProgram`, `ShaderCompilerUtil::readSource`,
`ShaderCompilerUtil::compileWithLayout` and the helper `_translateStage`.

Modelling conventions:
- The external Slang compiler service (the `sp...` calls that return data:
  command-line processing results, profile lookup, returned entry-point
  indices, the compile result, reflection data, per-entry-point code) is an
  oracle record `CompilerOracle`; the adapter's own logic is translated
  literally.
- The mutations the adapter performs on the `SlangCompileRequest` handle are
  recorded as an ordered trace of `RequestOp` values, one per `sp...` call
  that configures the request, in the order the C++ executes them.
- `SLANG_ASSERT` / `assert` calls are recorded in an ordered list of
  `AssertId` values (the C++ `assert` continues in release builds, and so
  does the model after recording the violation).
- C strings are modelled as Lean `String`s (hence never null: the
  `SLANG_ASSERT(entryPointName)` null check of the C++ is vacuous here);
  byte ranges are `List Nat`.
-/

/-- `SlangStage`: the compiler's stage enumeration (slang.h).
`none` (`SLANG_STAGE_NONE`) is the tag outside `_translateStage`'s table. -/
inductive SlangStage where
  | none
  | vertex
  | hull
  | domain
  | geometry
  | fragment
  | compute
  | rayGeneration
  | intersection
  | anyHit
  | closestHit
  | miss
  | callable
deriving DecidableEq, Repr, Fintype

/-- `gfx::StageType`: the renderer's stage enumeration, with the `Unknown`
sentinel. -/
inductive StageType where
  | Unknown
  | Vertex
  | Hull
  | Domain
  | Geometry
  | Fragment
  | Compute
  | RayGeneration
  | Intersection
  | AnyHit
  | ClosestHit
  | Miss
  | Callable
deriving DecidableEq, Repr, Fintype

/-- `SlangSourceLanguage` (slang.h). -/
inductive SourceLanguage where
  | unknown
  | slang
  | hlsl
  | glsl
  | c
  | cpp
  | cuda
deriving DecidableEq, Repr, Fintype

/-- `SlangPassThrough` (slang.h): `none` is `SLANG_PASS_THROUGH_NONE`; the
other constructors stand for the downstream tools selecting pass-through
compilation. -/
inductive PassThrough where
  | none
  | fxc
  | dxc
  | glslang
deriving DecidableEq, Repr, Fintype

/-- `Options::ShaderProgramType` (options.h is not among the sources; the
constructors are the four program categories named by the code and glossary:
Graphics, GraphicsCompute, Compute, RayTracing). -/
inductive ShaderProgramType where
  | Graphics
  | GraphicsCompute
  | Compute
  | RayTracing
deriving DecidableEq, Repr, Fintype

/-- `gfx::PipelineType` as carried through `input.pipelineType` into
`out.set`. -/
inductive PipelineType where
  | Unknown
  | Graphics
  | Compute
  | RayTracing
deriving DecidableEq, Repr, Fintype

/-- `SlangResult` is a signed 32-bit integer; negative means failure. -/
def SLANG_OK : Int := 0

/-- `SLANG_FAIL` = 0x80004005 read as a signed 32-bit integer. -/
def SLANG_FAIL : Int := -2147467259

/-- `SLANG_FAILED(r)`: a result code denotes failure iff it is negative. -/
def SLANG_FAILED (r : Int) : Bool := r < 0

/-- One assertion site of the adapter (`SLANG_ASSERT` / `assert`). -/
inductive AssertId where
  /-- `assert(!"unexpected")` in the source-language switch. -/
  | unexpectedDialect
  /-- `SLANG_ASSERT(false)` when explicit entry points are present although
  `options.dontAddDefaultEntryPoints` is set; carries the loop index. -/
  | explicitEntryPointsDisallowed (ee : Nat)
  /-- `SLANG_ASSERT(entryPointIndex == ee)` failed: carries the loop index
  and the index the compiler returned. -/
  | entryPointIndexMismatch (ee : Nat) (returned : Nat)
  /-- `SLANG_ASSERT(entryPointCount)`: reflection reported zero entry
  points in normal mode. -/
  | zeroEntryPoints
  /-- `SLANG_ASSERT(!"unhandled case")` in `_translateStage`. -/
  | unhandledStage (s : SlangStage)
deriving DecidableEq, Repr

/-- One request-configuring compiler call, as recorded in the build trace. -/
inductive RequestOp where
  | processCommandLineArguments (args : List String)
  | setCodeGenTarget (target : Nat)
  | setTargetProfile (profile : Nat)
  | addPreprocessorDefine (key : String) (value : String)
  | setPassThrough (pt : PassThrough)
  | addTranslationUnit (lang : SourceLanguage)
  | addTranslationUnitSourceString (tu : Nat) (path : String)
  | setTypeNameForGlobalExistentialTypeParam (slot : Nat) (typeName : String)
  | addEntryPoint (tu : Nat) (name : String) (stage : SlangStage)
  | setTypeNameForEntryPointExistentialTypeParam (entryPoint : Nat) (slot : Nat)
      (typeName : String)
  | setLineDirectiveMode
deriving DecidableEq, Repr

/-- `ShaderCompileRequest::EntryPoint`: name plus compiler stage tag. -/
structure EntryPoint where
  name : String
  slangStage : SlangStage
deriving DecidableEq, Repr

instance : Inhabited EntryPoint := ⟨⟨"", SlangStage.none⟩⟩

/-- `ShaderCompileRequest::SourceInfo`: path and the loaded text. -/
structure SourceInfo where
  path : String
  data : String
deriving DecidableEq, Repr

/-- `ShaderCompileRequest` (declared in slang-support.h, populated in
`compileWithLayout` and consumed by `compileProgram`). -/
structure ShaderCompileRequest where
  compileArgs : List String
  source : SourceInfo
  entryPoints : List EntryPoint
  globalSpecializationArgs : List String
  entryPointSpecializationArgs : List String
deriving DecidableEq, Repr

/-- `ShaderProgram::KernelDesc`: translated stage, entry point name and the
compiled bytecode range for that entry point's index. -/
structure KernelDesc where
  stage : StageType
  entryPointName : String
  code : List Nat
deriving DecidableEq, Repr

/-- Modelled from the spec: `ShaderCompilerUtil::Output` is declared in
slang-support.h, which is not among the sources. Per the spec (section 3),
a CompileOutput owns the compiler request/session handles and, once
populated by `set`, carries the pipeline type with the ordered kernel
descriptor list; `reset` returns it to the empty state. The handle fields
record whether `out.request` / `out.session` were assigned; `result` is
`some` exactly when `out.set(...)` ran. -/
structure Output where
  requestHandle : Bool
  sessionHandle : Bool
  result : Option (PipelineType × List KernelDesc)
deriving DecidableEq, Repr

/-- The reset / empty state of an `Output`. -/
def Output.empty : Output :=
  { requestHandle := false, sessionHandle := false, result := Option.none }

/-- `Options` (options.h is not among the sources): the fields
`compileProgram` / `compileWithLayout` read. -/
structure Options where
  sourcePath : String
  compileArgs : List String
  shaderType : ShaderProgramType
  dontAddDefaultEntryPoints : Bool
deriving Repr

/-- `ShaderCompilerUtil::Input`: how to compile (target, profile, dialect,
pass-through selection, pipeline type, extra `-xslang` args). -/
structure Input where
  target : Nat
  profile : String
  sourceLanguage : SourceLanguage
  passThrough : PassThrough
  pipelineType : PipelineType
  args : List String
deriving Repr

/-- The external compiler service: every `sp...` call of the adapter that
returns data, as a deterministic oracle. -/
structure CompilerOracle where
  /-- result code of `spProcessCommandLineArguments` on a given arg list. -/
  processCommandLineArguments : List String → Int
  /-- `spFindProfile`. -/
  findProfile : String → Nat
  /-- index returned by `spAddTranslationUnit`. -/
  addTranslationUnitIndex : Nat
  /-- index returned by the `ee`-th `spAddEntryPoint` call. -/
  addEntryPointIndex : Nat → Nat
  /-- result code of `spCompile`. -/
  compileResult : Int
  /-- `slang::ProgramLayout` reflection: the discovered entry points, by
  index (name via `getName`, stage via `getStage`). -/
  reflectionEntryPoints : List EntryPoint
  /-- `spGetEntryPointCode` for a given entry point index. -/
  getEntryPointCode : Nat → List Nat

/-- Entry point names fixed at the top of slang-support.cpp. -/
def vertexEntryPointName : String := "vertexMain"

def fragmentEntryPointName : String := "fragmentMain"

def computeEntryPointName : String := "computeMain"

/-- Declared in the source but never used by it. -/
def rtEntryPointName : String := "raygenMain"

/-- `_translateStage`: the compiler-stage to renderer-stage switch. The
first component is the returned `gfx::StageType`; the second is `true` iff
the default branch ran, i.e. `SLANG_ASSERT(!"unhandled case")` fired. -/
def _translateStage : SlangStage → StageType × Bool
  | SlangStage.vertex => (StageType.Vertex, false)
  | SlangStage.hull => (StageType.Hull, false)
  | SlangStage.domain => (StageType.Domain, false)
  | SlangStage.geometry => (StageType.Geometry, false)
  | SlangStage.fragment => (StageType.Fragment, false)
  | SlangStage.compute => (StageType.Compute, false)
  | SlangStage.rayGeneration => (StageType.RayGeneration, false)
  | SlangStage.intersection => (StageType.Intersection, false)
  | SlangStage.anyHit => (StageType.AnyHit, false)
  | SlangStage.closestHit => (StageType.ClosestHit, false)
  | SlangStage.miss => (StageType.Miss, false)
  | SlangStage.callable => (StageType.Callable, false)
  | SlangStage.none => (StageType.Unknown, true)

/-- The dialect-detection defines of the `input.sourceLanguage` switch in
`compileProgram`, in execution order. `SLANG_SOURCE_LANGUAGE_SLANG` adds
`__SLANG__` and then falls through to the `__HLSL__` case; the `default`
branch adds nothing. -/
def dialectDefines : SourceLanguage → List (String × String)
  | SourceLanguage.glsl => [("__GLSL__", "1")]
  | SourceLanguage.slang => [("__SLANG__", "1"), ("__HLSL__", "1")]
  | SourceLanguage.hlsl => [("__HLSL__", "1")]
  | SourceLanguage.c => [("__C__", "1")]
  | SourceLanguage.cpp => [("__CPP__", "1")]
  | SourceLanguage.cuda => [("__CUDA__", "1")]
  | SourceLanguage.unknown => []

/-- The `assert(!"unexpected")` of the same switch: only its `default`
branch asserts. -/
def dialectAsserts : SourceLanguage → List AssertId
  | SourceLanguage.unknown => [AssertId.unexpectedDialect]
  | _ => []

/-- Trace of the dialect-detection `spAddPreprocessorDefine` calls. -/
def dialectDefineOps (lang : SourceLanguage) : List RequestOp :=
  (dialectDefines lang).map fun kv => RequestOp.addPreprocessorDefine kv.1 kv.2

/-- The caller-supplied extra compiler arguments are forwarded in one
`spProcessCommandLineArguments` call, and only when the list is nonempty. -/
def extraArgsOps (compileArgs : List String) : List RequestOp :=
  if compileArgs.length > 0 then
    [RequestOp.processCommandLineArguments compileArgs]
  else []

/-- Result of the guarded first `spProcessCommandLineArguments` call (when
`request.compileArgs` is empty the call does not happen, so it cannot
fail). -/
def processExtraArgs (oracle : CompilerOracle) (compileArgs : List String) : Int :=
  if compileArgs.length > 0 then oracle.processCommandLineArguments compileArgs
  else SLANG_OK

/-- `spSetPassThrough` runs only when a pass-through mode is requested. -/
def passThroughOps (pt : PassThrough) : List RequestOp :=
  if pt = PassThrough.none then [] else [RequestOp.setPassThrough pt]

/-- The `spSetTypeNameForGlobalExistentialTypeParam` loop. -/
def globalSpecOps (args : List String) : List RequestOp :=
  args.enum.map fun p =>
    RequestOp.setTypeNameForGlobalExistentialTypeParam p.1 p.2

/-- `setEntryPointSpecializationArgs(entryPoint)`: attach the shared
`request.entryPointSpecializationArgs` list, slot by slot in order, to the
given entry point index. -/
def setEntryPointSpecializationArgs (entryPoint : Nat) (args : List String) :
    List RequestOp :=
  args.enum.map fun p =>
    RequestOp.setTypeNameForEntryPointExistentialTypeParam entryPoint p.1 p.2

/-- Trace of the explicit entry point loop from loop counter `ee` on: for
each declared entry point, one `spAddEntryPoint` call followed immediately
by the per-entry-point specialization-argument calls aimed at the index the
compiler returned. -/
def addEntryPointsOpsFrom (oracle : CompilerOracle) (tu : Nat)
    (specArgs : List String) : Nat → List EntryPoint → List RequestOp
  | _, [] => []
  | ee, ep :: rest =>
    RequestOp.addEntryPoint tu ep.name ep.slangStage ::
      (setEntryPointSpecializationArgs (oracle.addEntryPointIndex ee) specArgs ++
        addEntryPointsOpsFrom oracle tu specArgs (ee + 1) rest)

/-- Assertions of the explicit entry point loop from loop counter `ee` on:
`SLANG_ASSERT(false)` when explicit entry points exist although defaults
were disabled, and `SLANG_ASSERT(entryPointIndex == ee)` on index drift. -/
def addEntryPointsAssertsFrom (oracle : CompilerOracle) (options : Options) :
    Nat → List EntryPoint → List AssertId
  | _, [] => []
  | ee, _ :: rest =>
    (if options.dontAddDefaultEntryPoints then
      [AssertId.explicitEntryPointsDisallowed ee]
    else []) ++
    (if oracle.addEntryPointIndex ee = ee then []
    else [AssertId.entryPointIndexMismatch ee (oracle.addEntryPointIndex ee)]) ++
    addEntryPointsAssertsFrom oracle options (ee + 1) rest

/-- Entry point resolution (`actualEntryPoints`): reflection discovery in
normal mode, the declared list in pass-through mode. -/
def resolveActualEntryPoints (oracle : CompilerOracle) (input : Input)
    (request : ShaderCompileRequest) : List EntryPoint :=
  if input.passThrough = PassThrough.none then oracle.reflectionEntryPoints
  else request.entryPoints

/-- The kernel packaging loop: one `KernelDesc` per resolved entry point, in
order, with the translated stage and the code range `spGetEntryPointCode`
returns for that entry point's index. -/
def kernelDescsOf (oracle : CompilerOracle) (entryPoints : List EntryPoint) :
    List KernelDesc :=
  entryPoints.enum.map fun p =>
    { stage := (_translateStage (p.2).slangStage).1
      entryPointName := (p.2).name
      code := oracle.getEntryPointCode p.1 }

/-- Assertions fired by `_translateStage` during kernel packaging. -/
def kernelAsserts (entryPoints : List EntryPoint) : List AssertId :=
  entryPoints.flatMap fun ep =>
    if (_translateStage ep.slangStage).2 then [AssertId.unhandledStage ep.slangStage]
    else []

/-- Result of one `compileProgram` run: the returned `SlangResult`, the
final `out` state, the resolved entry point list (the local
`actualEntryPoints`, `[]` when an early return happened before resolution),
the request-build trace and the recorded assertion violations. -/
structure CompileProgramResult where
  res : Int
  out : Output
  actualEntryPoints : List EntryPoint
  trace : List RequestOp
  asserts : List AssertId
deriving Repr

/-- `ShaderCompilerUtil::compileProgram`, translated clause by clause:
reset the output and take the request/session handles; forward the
caller-supplied extra args (early return on failure); set target and
profile; add the dialect-detection defines; set pass-through when
requested; forward the `-xslang` args (early return on failure); add the
translation unit and its source; attach global specialization args; add the
explicit entry points with their specialization args; disable line
directives; compile (early return on failure, after draining diagnostics);
resolve entry points (reflection in normal mode, with the nonzero-count
assertion, else the declared list); package kernels; `out.set(...)`. -/
def ShaderCompilerUtil.compileProgram (oracle : CompilerOracle)
    (options : Options) (input : Input) (request : ShaderCompileRequest) :
    CompileProgramResult :=
  let out0 : Output :=
    { requestHandle := true, sessionHandle := true, result := Option.none }
  let trace1 := extraArgsOps request.compileArgs
  let r1 := processExtraArgs oracle request.compileArgs
  if SLANG_FAILED r1 then
    { res := r1, out := out0, actualEntryPoints := [], trace := trace1,
      asserts := [] }
  else
    let trace2 := trace1 ++
      [RequestOp.setCodeGenTarget input.target,
       RequestOp.setTargetProfile (oracle.findProfile input.profile)] ++
      dialectDefineOps input.sourceLanguage ++
      passThroughOps input.passThrough ++
      [RequestOp.processCommandLineArguments input.args]
    let asserts2 := dialectAsserts input.sourceLanguage
    let r2 := oracle.processCommandLineArguments input.args
    if SLANG_FAILED r2 then
      { res := r2, out := out0, actualEntryPoints := [], trace := trace2,
        asserts := asserts2 }
    else
      let tu := oracle.addTranslationUnitIndex
      let trace3 := trace2 ++
        [RequestOp.addTranslationUnit input.sourceLanguage,
         RequestOp.addTranslationUnitSourceString tu request.source.path] ++
        globalSpecOps request.globalSpecializationArgs ++
        addEntryPointsOpsFrom oracle tu request.entryPointSpecializationArgs
          0 request.entryPoints ++
        [RequestOp.setLineDirectiveMode]
      let asserts3 := asserts2 ++
        addEntryPointsAssertsFrom oracle options 0 request.entryPoints
      let res := oracle.compileResult
      if SLANG_FAILED res then
        { res := res, out := out0, actualEntryPoints := [], trace := trace3,
          asserts := asserts3 }
      else
        let actual := resolveActualEntryPoints oracle input request
        let asserts4 := asserts3 ++
          (if input.passThrough = PassThrough.none then
            (if oracle.reflectionEntryPoints.length = 0 then
              [AssertId.zeroEntryPoints]
            else [])
          else []) ++
          kernelAsserts actual
        let kernels := kernelDescsOf oracle actual
        { res := SLANG_OK,
          out := { out0 with result := some (input.pipelineType, kernels) },
          actualEntryPoints := actual, trace := trace3, asserts := asserts4 }

/-- `ShaderCompilerUtil::readSource`: the file system is an oracle
(`some` contents when the file opens, `Option.none` when it cannot be
opened, which is the `FileReadError` of the spec's taxonomy). -/
def ShaderCompilerUtil.readSource (fileContents : Option String) :
    Int × String :=
  match fileContents with
  | Option.none => (SLANG_FAIL, "")
  | some s => (SLANG_OK, s)

/-- The parsed test layout (`ShaderInputLayout`): the fields
`compileWithLayout` reads and writes. -/
structure Layout where
  numRenderTargets : Nat
  globalSpecializationArgs : List String
  entryPointSpecializationArgs : List String
deriving Repr

/-- `ShaderCompilerUtil::OutputAndLayout`. -/
structure OutputAndLayout where
  output : Output
  sourcePath : String
  layout : Layout
deriving Repr

/-- The environment `compileWithLayout` runs in: the file system, the
session's language prelude, the external layout parser (`layout.parse`
with its fixed random seed, composed with `layout.updateForTarget`), and
the compiler oracle. -/
structure Environment where
  fileContents : Option String
  languagePrelude : SourceLanguage → String
  parseLayout : String → Layout → Layout
  compiler : CompilerOracle

/-- The render-target default assigned by the `shaderType` switch before
layout parsing: 0 for Compute and RayTracing, 1 otherwise. -/
def defaultRenderTargets : ShaderProgramType → Nat
  | ShaderProgramType.Compute => 0
  | ShaderProgramType.RayTracing => 0
  | _ => 1

/-- The default entry points injected when
`options.dontAddDefaultEntryPoints` is off: vertex+fragment for Graphics
and GraphicsCompute, none for RayTracing (reflection discovery only),
compute for everything else. -/
def defaultEntryPoints : ShaderProgramType → List EntryPoint
  | ShaderProgramType.Graphics =>
    [{ name := vertexEntryPointName, slangStage := SlangStage.vertex },
     { name := fragmentEntryPointName, slangStage := SlangStage.fragment }]
  | ShaderProgramType.GraphicsCompute =>
    [{ name := vertexEntryPointName, slangStage := SlangStage.vertex },
     { name := fragmentEntryPointName, slangStage := SlangStage.fragment }]
  | ShaderProgramType.RayTracing => []
  | ShaderProgramType.Compute =>
    [{ name := computeEntryPointName, slangStage := SlangStage.compute }]

/-- Result of one `compileWithLayout` run: the returned result code, the
final `OutputAndLayout`, the `ShaderCompileRequest` it built
(`Option.none` when the run aborted before building one), and the trace
and assertions of the inner `compileProgram` call. -/
structure CompileWithLayoutResult where
  res : Int
  output : OutputAndLayout
  builtRequest : Option ShaderCompileRequest
  trace : List RequestOp
  asserts : List AssertId
deriving Repr

/-- `ShaderCompilerUtil::compileWithLayout`, translated clause by clause:
read the source (early return on `FileReadError`, leaving the caller's
output untouched); prepend the language prelude for the C and C++
dialects; default the render-target count from the shader type; parse the
layout; build the `ShaderCompileRequest` (source info, caller compile
args, the default entry points unless disabled, the layout's
specialization args); run `compileProgram`. -/
def ShaderCompilerUtil.compileWithLayout (env : Environment)
    (options : Options) (input : Input) (output0 : OutputAndLayout) :
    CompileWithLayoutResult :=
  let rr := ShaderCompilerUtil.readSource env.fileContents
  if SLANG_FAILED rr.1 then
    { res := rr.1, output := output0, builtRequest := Option.none,
      trace := [], asserts := [] }
  else
    let sourceText :=
      if input.sourceLanguage = SourceLanguage.cpp ∨
          input.sourceLanguage = SourceLanguage.c then
        env.languagePrelude input.sourceLanguage ++ "\n" ++ rr.2
      else rr.2
    let layout0 : Layout :=
      { numRenderTargets := defaultRenderTargets options.shaderType,
        globalSpecializationArgs := [],
        entryPointSpecializationArgs := [] }
    let layout := env.parseLayout sourceText layout0
    let sourceInfo : SourceInfo :=
      { path := options.sourcePath, data := sourceText }
    let compileRequest : ShaderCompileRequest :=
      { compileArgs := options.compileArgs,
        source := sourceInfo,
        entryPoints :=
          if options.dontAddDefaultEntryPoints then []
          else defaultEntryPoints options.shaderType,
        globalSpecializationArgs := layout.globalSpecializationArgs,
        entryPointSpecializationArgs := layout.entryPointSpecializationArgs }
    let r := ShaderCompilerUtil.compileProgram env.compiler options input
      compileRequest
    { res := r.res,
      output :=
        { output := r.out, sourcePath := options.sourcePath, layout := layout },
      builtRequest := some compileRequest,
      trace := r.trace, asserts := r.asserts }

/-- The specialization type-argument names a given build trace attaches to
a given entry point index, in trace order. -/
def specArgAttachments (entryPoint : Nat) (trace : List RequestOp) :
    List String :=
  trace.filterMap fun op =>
    match op with
    | RequestOp.setTypeNameForEntryPointExistentialTypeParam ep _slot
        typeName =>
      if ep = entryPoint then some typeName else Option.none
    | _ => Option.none

/-! ## Sample fixtures (concrete oracles and inputs used by the witnesses) -/

/-- A well-behaved compiler oracle: every call succeeds, entry point
indices come back in declaration order, reflection reports one compute
entry point. -/
def sampleCompiler : CompilerOracle :=
  { processCommandLineArguments := fun _ => SLANG_OK
    findProfile := fun _ => 5
    addTranslationUnitIndex := 0
    addEntryPointIndex := fun ee => ee
    compileResult := SLANG_OK
    reflectionEntryPoints :=
      [{ name := "computeMain", slangStage := SlangStage.compute }]
    getEntryPointCode := fun ee => [ee, 7] }

def sampleEnvironment : Environment :=
  { fileContents := some "void computeMain()"
    languagePrelude := fun _ => "// prelude"
    parseLayout := fun _ l => l
    compiler := sampleCompiler }

def sampleEnvironmentNoFile : Environment :=
  { sampleEnvironment with fileContents := Option.none }

def sampleOptionsCompute : Options :=
  { sourcePath := "test.slang", compileArgs := [],
    shaderType := ShaderProgramType.Compute,
    dontAddDefaultEntryPoints := false }

def sampleInput : Input :=
  { target := 3, profile := "cs_5_0", sourceLanguage := SourceLanguage.slang,
    passThrough := PassThrough.none, pipelineType := PipelineType.Compute,
    args := [] }

/-- A pass-through variant of `sampleInput`. -/
def sampleInputPassThrough : Input :=
  { sampleInput with passThrough := PassThrough.fxc }

def sampleRequest : ShaderCompileRequest :=
  { compileArgs := ["-O2"]
    source := { path := "test.slang", data := "void computeMain()" }
    entryPoints :=
      [{ name := "vertexMain", slangStage := SlangStage.vertex },
       { name := "fragmentMain", slangStage := SlangStage.fragment }]
    globalSpecializationArgs := ["GlobalImpl"]
    entryPointSpecializationArgs := ["ImplA", "ImplB"] }

def sampleOutputAndLayout : OutputAndLayout :=
  { output := Output.empty, sourcePath := "",
    layout := { numRenderTargets := 0, globalSpecializationArgs := [],
                entryPointSpecializationArgs := [] } }

/-! ## General lemmas about one `compileProgram` run -/

/-- On the all-success path, `compileProgram` is the straight-line record:
`SLANG_OK`, the populated output, the resolved entry points, the full build
trace and the recorded assertions. -/
theorem compileProgram_success_run (oracle : CompilerOracle)
    (options : Options) (input : Input) (request : ShaderCompileRequest)
    (h1 : SLANG_FAILED (processExtraArgs oracle request.compileArgs) = false)
    (h2 : SLANG_FAILED (oracle.processCommandLineArguments input.args) = false)
    (h3 : SLANG_FAILED oracle.compileResult = false) :
    ShaderCompilerUtil.compileProgram oracle options input request =
      { res := SLANG_OK
        out := { requestHandle := true, sessionHandle := true,
                 result := some (input.pipelineType,
                   kernelDescsOf oracle
                     (resolveActualEntryPoints oracle input request)) }
        actualEntryPoints := resolveActualEntryPoints oracle input request
        trace := extraArgsOps request.compileArgs ++
          [RequestOp.setCodeGenTarget input.target,
           RequestOp.setTargetProfile (oracle.findProfile input.profile)] ++
          dialectDefineOps input.sourceLanguage ++
          passThroughOps input.passThrough ++
          [RequestOp.processCommandLineArguments input.args] ++
          [RequestOp.addTranslationUnit input.sourceLanguage,
           RequestOp.addTranslationUnitSourceString
             oracle.addTranslationUnitIndex request.source.path] ++
          globalSpecOps request.globalSpecializationArgs ++
          addEntryPointsOpsFrom oracle oracle.addTranslationUnitIndex
            request.entryPointSpecializationArgs 0 request.entryPoints ++
          [RequestOp.setLineDirectiveMode]
        asserts := dialectAsserts input.sourceLanguage ++
          addEntryPointsAssertsFrom oracle options 0 request.entryPoints ++
          (if input.passThrough = PassThrough.none then
            (if oracle.reflectionEntryPoints.length = 0 then
              [AssertId.zeroEntryPoints]
            else [])
          else []) ++
          kernelAsserts (resolveActualEntryPoints oracle input request) } := by
  unfold ShaderCompilerUtil.compileProgram
  simp only [h1, h2, h3, Bool.false_eq_true, if_false, List.append_assoc]

/-! ## C2: stage translation -/

/-- C2: `_translateStage` is a pure total function that maps each of the
twelve in-table compiler stage tags (vertex, hull, domain, geometry,
fragment, compute, ray-generation, intersection, any-hit, closest-hit,
miss, callable) to its renderer tag without asserting, is injective on the
table, and for the tag outside the table (`SLANG_STAGE_NONE`) it fires the
`unhandled case` assertion and returns `Unknown`; `Unknown` is returned
exactly when the default branch (and so the assertion) is reached. -/
theorem translateStage_table :
    (_translateStage SlangStage.vertex = (StageType.Vertex, false) ∧
     _translateStage SlangStage.hull = (StageType.Hull, false) ∧
     _translateStage SlangStage.domain = (StageType.Domain, false) ∧
     _translateStage SlangStage.geometry = (StageType.Geometry, false) ∧
     _translateStage SlangStage.fragment = (StageType.Fragment, false) ∧
     _translateStage SlangStage.compute = (StageType.Compute, false) ∧
     _translateStage SlangStage.rayGeneration =
       (StageType.RayGeneration, false) ∧
     _translateStage SlangStage.intersection =
       (StageType.Intersection, false) ∧
     _translateStage SlangStage.anyHit = (StageType.AnyHit, false) ∧
     _translateStage SlangStage.closestHit = (StageType.ClosestHit, false) ∧
     _translateStage SlangStage.miss = (StageType.Miss, false) ∧
     _translateStage SlangStage.callable = (StageType.Callable, false)) ∧
    _translateStage SlangStage.none = (StageType.Unknown, true) ∧
    (∀ s t : SlangStage, s ≠ SlangStage.none → t ≠ SlangStage.none →
      (_translateStage s).1 = (_translateStage t).1 → s = t) ∧
    (∀ s : SlangStage,
      (_translateStage s).1 = StageType.Unknown ↔ (_translateStage s).2 = true) := by
  decide

/-- Witness for C2 at concrete stage tags. -/
theorem translateStage_table_witness :
    SlangStage.vertex = SlangStage.vertex ∧
    ((_translateStage SlangStage.none).1 = StageType.Unknown ↔
      (_translateStage SlangStage.none).2 = true) :=
  ⟨translateStage_table.2.2.1 SlangStage.vertex SlangStage.vertex
    (by decide) (by decide) (by decide),
   translateStage_table.2.2.2 SlangStage.none⟩

/-! ## C6: dialect-detection defines -/

/-- C6 counterexample: the claim says macro selection "defines exactly one
macro per compile", but for the shading-language dialect
(`SLANG_SOURCE_LANGUAGE_SLANG`) the switch falls through and defines two
macros, not one. -/
theorem dialectDefines_slang_two_defines :
    (dialectDefines SourceLanguage.slang).length = 2 ∧
    ¬ (dialectDefines SourceLanguage.slang).length = 1 := by
  decide

/-- C6 (amended): dialect-detection macro selection is a total
deterministic function of the source dialect with the fixed mapping
CPP to exactly the single macro __CPP__=1, SLANG to exactly the two macros
__SLANG__=1 and __HLSL__=1 (in that order), GLSL/HLSL/C/CUDA to their
single macros, and the unrecognized dialect defines nothing and fires the
`unexpected` assertion (a fatal configuration error). -/
theorem dialectDefines_mapping :
    dialectDefines SourceLanguage.cpp = [("__CPP__", "1")] ∧
    dialectDefines SourceLanguage.slang =
      [("__SLANG__", "1"), ("__HLSL__", "1")] ∧
    dialectDefines SourceLanguage.glsl = [("__GLSL__", "1")] ∧
    dialectDefines SourceLanguage.hlsl = [("__HLSL__", "1")] ∧
    dialectDefines SourceLanguage.c = [("__C__", "1")] ∧
    dialectDefines SourceLanguage.cuda = [("__CUDA__", "1")] ∧
    dialectDefines SourceLanguage.unknown = [] ∧
    (∀ lang : SourceLanguage,
      dialectAsserts lang =
        if lang = SourceLanguage.unknown then [AssertId.unexpectedDialect]
        else []) := by
  decide

/-! ## C1: default entry point injection in `compileWithLayout` -/

/-- C1: with default entry-point injection enabled, the built request's
explicit entry point list is `defaultEntryPoints` of the shader program
type, and that table gives exactly one Compute entry point
("computeMain", stage compute) for Compute, exactly
[("vertexMain", vertex), ("fragmentMain", fragment)] in order for
Graphics, and no pre-declared entry points for RayTracing, whose
render-target count defaults to 0. -/
theorem compileWithLayout_default_entry_points (env : Environment)
    (options : Options) (input : Input) (output0 : OutputAndLayout)
    (s : String) (hfile : env.fileContents = some s)
    (hdef : options.dontAddDefaultEntryPoints = false) :
    ((ShaderCompilerUtil.compileWithLayout env options input
        output0).builtRequest.map fun r => r.entryPoints) =
      some (defaultEntryPoints options.shaderType) ∧
    defaultEntryPoints ShaderProgramType.Compute =
      [{ name := "computeMain", slangStage := SlangStage.compute }] ∧
    defaultEntryPoints ShaderProgramType.Graphics =
      [{ name := "vertexMain", slangStage := SlangStage.vertex },
       { name := "fragmentMain", slangStage := SlangStage.fragment }] ∧
    defaultEntryPoints ShaderProgramType.RayTracing = [] ∧
    defaultRenderTargets ShaderProgramType.RayTracing = 0 := by
  refine ⟨?_, by decide, by decide, by decide, by decide⟩
  unfold ShaderCompilerUtil.compileWithLayout
  simp [ShaderCompilerUtil.readSource, hfile, hdef, SLANG_FAILED, SLANG_OK]

/-- Witness for C1 on the concrete Compute fixture. -/
theorem compileWithLayout_default_entry_points_witness :
    ((ShaderCompilerUtil.compileWithLayout sampleEnvironment
        sampleOptionsCompute sampleInput
        sampleOutputAndLayout).builtRequest.map fun r => r.entryPoints) =
      some (defaultEntryPoints ShaderProgramType.Compute) :=
  (compileWithLayout_default_entry_points sampleEnvironment
    sampleOptionsCompute sampleInput sampleOutputAndLayout
    "void computeMain()" rfl rfl).1

/-! ## C9: no partial output on failure -/

/-- C9: on any failure the compile-and-extract sequence aborts without a
partially populated CompileOutput. First conjunct: an unreadable source
path makes `compileWithLayout` return `SLANG_FAIL` (the spec's
`FileReadError`) before any compile request is built (no built request, an
empty build trace) with the caller's output untouched. Second conjunct:
whenever `compileProgram` returns a failure code, `out.set(...)` never ran,
so the output carries no kernel payload. -/
theorem compile_failure_no_partial_output :
    (∀ (env : Environment) (options : Options) (input : Input)
        (output0 : OutputAndLayout),
      env.fileContents = Option.none →
      ShaderCompilerUtil.compileWithLayout env options input output0 =
        { res := SLANG_FAIL, output := output0,
          builtRequest := Option.none, trace := [], asserts := [] }) ∧
    (∀ (oracle : CompilerOracle) (options : Options) (input : Input)
        (request : ShaderCompileRequest),
      SLANG_FAILED
        (ShaderCompilerUtil.compileProgram oracle options input request).res =
        true →
      (ShaderCompilerUtil.compileProgram oracle options input
        request).out.result = Option.none) := by
  constructor
  · intro env options input output0 h
    unfold ShaderCompilerUtil.compileWithLayout
    simp [ShaderCompilerUtil.readSource, h, SLANG_FAILED, SLANG_FAIL]
  · intro oracle options input request h
    by_cases h1 : SLANG_FAILED (processExtraArgs oracle request.compileArgs)
    · simp [ShaderCompilerUtil.compileProgram, h1]
    · by_cases h2 :
        SLANG_FAILED (oracle.processCommandLineArguments input.args)
      · simp [ShaderCompilerUtil.compileProgram, h1, h2]
      · by_cases h3 : SLANG_FAILED oracle.compileResult
        · simp [ShaderCompilerUtil.compileProgram, h1, h2, h3]
        · rw [compileProgram_success_run oracle options input request
            (by simpa using h1) (by simpa using h2) (by simpa using h3)] at h
          simp [SLANG_FAILED, SLANG_OK] at h

/-- Witness for C9 on the unreadable-source fixture. -/
theorem compile_failure_no_partial_output_witness :
    ShaderCompilerUtil.compileWithLayout sampleEnvironmentNoFile
      sampleOptionsCompute sampleInput sampleOutputAndLayout =
      { res := SLANG_FAIL, output := sampleOutputAndLayout,
        builtRequest := Option.none, trace := [], asserts := [] } :=
  compile_failure_no_partial_output.1 sampleEnvironmentNoFile
    sampleOptionsCompute sampleInput sampleOutputAndLayout rfl

/-! ## C3: kernel packaging -/

theorem kernelDescsOf_length (oracle : CompilerOracle)
    (eps : List EntryPoint) :
    (kernelDescsOf oracle eps).length = eps.length := by
  simp [kernelDescsOf]

theorem kernelDescsOf_getElem? (oracle : CompilerOracle)
    (eps : List EntryPoint) (ee : Nat) :
    (kernelDescsOf oracle eps)[ee]? = (eps[ee]?).map fun ep =>
      { stage := (_translateStage ep.slangStage).1
        entryPointName := ep.name
        code := oracle.getEntryPointCode ee } := by
  simp only [kernelDescsOf, List.getElem?_map, List.getElem?_enum,
    Option.map_map]
  rfl

/-- C3: after a successful compile, the packaged output is tagged with the
requested pipeline type, holds exactly one kernel per resolved entry point
(equal lengths, none skipped), and the kernel at each position carries that
entry point's translated stage, its name, and the bytecode range fetched
for that entry point's index. -/
theorem compileProgram_kernel_packaging (oracle : CompilerOracle)
    (options : Options) (input : Input) (request : ShaderCompileRequest)
    (h1 : SLANG_FAILED (processExtraArgs oracle request.compileArgs) = false)
    (h2 : SLANG_FAILED (oracle.processCommandLineArguments input.args) = false)
    (h3 : SLANG_FAILED oracle.compileResult = false) :
    ((ShaderCompilerUtil.compileProgram oracle options input
        request).out.result.map Prod.fst) = some input.pipelineType ∧
    ((ShaderCompilerUtil.compileProgram oracle options input
        request).out.result.map fun pr => pr.2.length) =
      some (ShaderCompilerUtil.compileProgram oracle options input
        request).actualEntryPoints.length ∧
    (∀ ee : Nat,
      ((ShaderCompilerUtil.compileProgram oracle options input
          request).out.result.map fun pr => pr.2[ee]?) =
        some (((ShaderCompilerUtil.compileProgram oracle options input
            request).actualEntryPoints[ee]?).map fun ep =>
          { stage := (_translateStage ep.slangStage).1
            entryPointName := ep.name
            code := oracle.getEntryPointCode ee })) := by
  rw [compileProgram_success_run oracle options input request h1 h2 h3]
  refine ⟨rfl, ?_, ?_⟩
  · simp [kernelDescsOf_length]
  · intro ee
    simp [kernelDescsOf_getElem?]

/-- Witness for C3 on the concrete fixtures. -/
theorem compileProgram_kernel_packaging_witness :
    ((ShaderCompilerUtil.compileProgram sampleCompiler sampleOptionsCompute
        sampleInput sampleRequest).out.result.map fun pr => pr.2.length) =
      some (ShaderCompilerUtil.compileProgram sampleCompiler
        sampleOptionsCompute sampleInput
        sampleRequest).actualEntryPoints.length :=
  (compileProgram_kernel_packaging sampleCompiler sampleOptionsCompute
    sampleInput sampleRequest (by decide) (by decide) (by decide)).2.1

/-! ## C4: pass-through vs reflection entry point resolution -/

theorem kernelDescsOf_congr (o1 o2 : CompilerOracle)
    (h : o1.getEntryPointCode = o2.getEntryPointCode)
    (eps : List EntryPoint) :
    kernelDescsOf o1 eps = kernelDescsOf o2 eps := by
  simp [kernelDescsOf, h]

theorem addEntryPointsOpsFrom_congr (o1 o2 : CompilerOracle)
    (h : o1.addEntryPointIndex = o2.addEntryPointIndex) (tu : Nat)
    (specArgs : List String) (start : Nat) (eps : List EntryPoint) :
    addEntryPointsOpsFrom o1 tu specArgs start eps =
      addEntryPointsOpsFrom o2 tu specArgs start eps := by
  induction eps generalizing start with
  | nil => rfl
  | cons x rest ih => simp [addEntryPointsOpsFrom, h, ih]

theorem addEntryPointsAssertsFrom_congr (o1 o2 : CompilerOracle)
    (h : o1.addEntryPointIndex = o2.addEntryPointIndex) (options : Options)
    (start : Nat) (eps : List EntryPoint) :
    addEntryPointsAssertsFrom o1 options start eps =
      addEntryPointsAssertsFrom o2 options start eps := by
  induction eps generalizing start with
  | nil => rfl
  | cons x rest ih => simp [addEntryPointsAssertsFrom, h, ih]

/-- C4: in pass-through mode the resolved entry point list is exactly the
declared explicit list, and the whole run is independent of the compiler's
reflection data (no discovery step); only in normal mode are the resolved
entry points read, by position, from compiler reflection. -/
theorem compileProgram_pass_through_resolution (oracle : CompilerOracle)
    (options : Options) (input : Input) (request : ShaderCompileRequest)
    (h1 : SLANG_FAILED (processExtraArgs oracle request.compileArgs) = false)
    (h2 : SLANG_FAILED (oracle.processCommandLineArguments input.args) = false)
    (h3 : SLANG_FAILED oracle.compileResult = false) :
    (input.passThrough ≠ PassThrough.none →
      (ShaderCompilerUtil.compileProgram oracle options input
        request).actualEntryPoints = request.entryPoints ∧
      ∀ repl : List EntryPoint,
        ShaderCompilerUtil.compileProgram
          { oracle with reflectionEntryPoints := repl } options input
          request =
        ShaderCompilerUtil.compileProgram oracle options input request) ∧
    (input.passThrough = PassThrough.none →
      (ShaderCompilerUtil.compileProgram oracle options input
        request).actualEntryPoints = oracle.reflectionEntryPoints) := by
  constructor
  · intro hpt
    constructor
    · rw [compileProgram_success_run oracle options input request h1 h2 h3]
      simp [resolveActualEntryPoints, hpt]
    · intro repl
      rw [compileProgram_success_run oracle options input request h1 h2 h3,
        compileProgram_success_run
          { oracle with reflectionEntryPoints := repl } options input request
          h1 h2 h3]
      have hops := addEntryPointsOpsFrom_congr
        { oracle with reflectionEntryPoints := repl } oracle rfl
        oracle.addTranslationUnitIndex request.entryPointSpecializationArgs
        0 request.entryPoints
      have hasserts := addEntryPointsAssertsFrom_congr
        { oracle with reflectionEntryPoints := repl } oracle rfl options
        0 request.entryPoints
      have hkd := kernelDescsOf_congr
        { oracle with reflectionEntryPoints := repl } oracle rfl
        request.entryPoints
      simp [resolveActualEntryPoints, hpt, hops, hasserts, hkd]
  · intro hpt
    rw [compileProgram_success_run oracle options input request h1 h2 h3]
    simp [resolveActualEntryPoints, hpt]

/-- Witness for C4 on a pass-through fixture. -/
theorem compileProgram_pass_through_resolution_witness :
    (ShaderCompilerUtil.compileProgram sampleCompiler sampleOptionsCompute
      sampleInputPassThrough sampleRequest).actualEntryPoints =
      sampleRequest.entryPoints :=
  ((compileProgram_pass_through_resolution sampleCompiler
    sampleOptionsCompute sampleInputPassThrough sampleRequest (by decide)
    (by decide) (by decide)).1 (by decide)).1

/-! ## C5: normal-mode entry point count -/

theorem zeroEntryPoints_not_mem_dialectAsserts (lang : SourceLanguage) :
    AssertId.zeroEntryPoints ∉ dialectAsserts lang := by
  cases lang <;> simp [dialectAsserts]

theorem zeroEntryPoints_not_mem_epAsserts (oracle : CompilerOracle)
    (options : Options) (eps : List EntryPoint) (start : Nat) :
    AssertId.zeroEntryPoints ∉
      addEntryPointsAssertsFrom oracle options start eps := by
  induction eps generalizing start with
  | nil => simp [addEntryPointsAssertsFrom]
  | cons x rest ih =>
    simp only [addEntryPointsAssertsFrom, List.mem_append]
    push_neg
    refine ⟨⟨?_, ?_⟩, ih _⟩ <;> split_ifs <;> simp

theorem kernelAsserts_shape (eps : List EntryPoint) (a : AssertId)
    (h : a ∈ kernelAsserts eps) : ∃ s, a = AssertId.unhandledStage s := by
  rw [kernelAsserts, List.mem_flatMap] at h
  obtain ⟨ep, _, hmem⟩ := h
  by_cases hc : (_translateStage ep.slangStage).2 <;> simp [hc] at hmem
  exact ⟨ep.slangStage, hmem⟩

/-- C5: after a successful normal-mode (non-pass-through) compile, the
zero-entry-point internal-consistency assertion fires exactly when
reflection reports zero entry points; when it does not fire, the resolved
entry point count is at least 1. -/
theorem compileProgram_normal_mode_count (oracle : CompilerOracle)
    (options : Options) (input : Input) (request : ShaderCompileRequest)
    (h1 : SLANG_FAILED (processExtraArgs oracle request.compileArgs) = false)
    (h2 : SLANG_FAILED (oracle.processCommandLineArguments input.args) = false)
    (h3 : SLANG_FAILED oracle.compileResult = false)
    (hpt : input.passThrough = PassThrough.none) :
    (AssertId.zeroEntryPoints ∈
      (ShaderCompilerUtil.compileProgram oracle options input
        request).asserts ↔
      oracle.reflectionEntryPoints.length = 0) ∧
    (AssertId.zeroEntryPoints ∉
      (ShaderCompilerUtil.compileProgram oracle options input
        request).asserts →
      1 ≤ (ShaderCompilerUtil.compileProgram oracle options input
        request).actualEntryPoints.length) := by
  rw [compileProgram_success_run oracle options input request h1 h2 h3]
  have hiff : AssertId.zeroEntryPoints ∈
      (dialectAsserts input.sourceLanguage ++
        addEntryPointsAssertsFrom oracle options 0 request.entryPoints ++
        (if input.passThrough = PassThrough.none then
          (if oracle.reflectionEntryPoints.length = 0 then
            [AssertId.zeroEntryPoints]
          else [])
        else []) ++
        kernelAsserts (resolveActualEntryPoints oracle input request)) ↔
      oracle.reflectionEntryPoints.length = 0 := by
    simp only [List.mem_append]
    constructor
    · rintro (((h | h) | h) | h)
      · exact absurd h (zeroEntryPoints_not_mem_dialectAsserts _)
      · exact absurd h (zeroEntryPoints_not_mem_epAsserts _ _ _ _)
      · by_cases hz : oracle.reflectionEntryPoints.length = 0
        · exact hz
        · simp [hpt, hz] at h
      · obtain ⟨s, hs⟩ := kernelAsserts_shape _ _ h
        cases hs
    · intro hz
      left; right
      simp [hpt, hz]
  constructor
  · exact hiff
  · intro hna
    have hz : ¬ oracle.reflectionEntryPoints.length = 0 := fun hz =>
      hna (hiff.mpr hz)
    simp only [resolveActualEntryPoints, hpt, if_pos rfl]
    exact Nat.pos_of_ne_zero hz

/-- Witness for C5 on the concrete fixtures. -/
theorem compileProgram_normal_mode_count_witness :
    AssertId.zeroEntryPoints ∈
      (ShaderCompilerUtil.compileProgram sampleCompiler sampleOptionsCompute
        sampleInput sampleRequest).asserts ↔
      sampleCompiler.reflectionEntryPoints.length = 0 :=
  (compileProgram_normal_mode_count sampleCompiler sampleOptionsCompute
    sampleInput sampleRequest (by decide) (by decide) (by decide) rfl).1

/-! ## C7: request build order -/

/-- Once both command-line-argument forwarding calls succeed, the build
trace is fixed regardless of the compile outcome. -/
theorem compileProgram_build_trace (oracle : CompilerOracle)
    (options : Options) (input : Input) (request : ShaderCompileRequest)
    (h1 : SLANG_FAILED (processExtraArgs oracle request.compileArgs) = false)
    (h2 : SLANG_FAILED (oracle.processCommandLineArguments input.args) = false) :
    (ShaderCompilerUtil.compileProgram oracle options input request).trace =
      extraArgsOps request.compileArgs ++
      [RequestOp.setCodeGenTarget input.target,
       RequestOp.setTargetProfile (oracle.findProfile input.profile)] ++
      dialectDefineOps input.sourceLanguage ++
      passThroughOps input.passThrough ++
      [RequestOp.processCommandLineArguments input.args] ++
      [RequestOp.addTranslationUnit input.sourceLanguage,
       RequestOp.addTranslationUnitSourceString oracle.addTranslationUnitIndex
         request.source.path] ++
      globalSpecOps request.globalSpecializationArgs ++
      addEntryPointsOpsFrom oracle oracle.addTranslationUnitIndex
        request.entryPointSpecializationArgs 0 request.entryPoints ++
      [RequestOp.setLineDirectiveMode] := by
  by_cases h3 : SLANG_FAILED oracle.compileResult = true
  · unfold ShaderCompilerUtil.compileProgram
    simp only [h1, h2, h3, Bool.false_eq_true, if_false, if_true,
      List.append_assoc]
  · rw [compileProgram_success_run oracle options input request h1 h2
      (by simpa using h3)]

/-- C7: the request-building operations are applied in the fixed order:
caller-supplied extra compiler arguments first (one forwarding call, only
when the list is nonempty), then code-generation target and profile, then
the dialect-detection defines, then pass-through mode (only when
requested), then a second command-line-argument forwarding call with the
pass-through-specific extra arguments, followed by the translation unit,
specialization arguments, entry points and the line-directive setting. -/
theorem compileProgram_request_build_order (oracle : CompilerOracle)
    (options : Options) (input : Input) (request : ShaderCompileRequest)
    (h1 : SLANG_FAILED (processExtraArgs oracle request.compileArgs) = false)
    (h2 : SLANG_FAILED (oracle.processCommandLineArguments input.args) = false) :
    (ShaderCompilerUtil.compileProgram oracle options input request).trace =
      extraArgsOps request.compileArgs ++
      [RequestOp.setCodeGenTarget input.target,
       RequestOp.setTargetProfile (oracle.findProfile input.profile)] ++
      dialectDefineOps input.sourceLanguage ++
      passThroughOps input.passThrough ++
      [RequestOp.processCommandLineArguments input.args] ++
      [RequestOp.addTranslationUnit input.sourceLanguage,
       RequestOp.addTranslationUnitSourceString oracle.addTranslationUnitIndex
         request.source.path] ++
      globalSpecOps request.globalSpecializationArgs ++
      addEntryPointsOpsFrom oracle oracle.addTranslationUnitIndex
        request.entryPointSpecializationArgs 0 request.entryPoints ++
      [RequestOp.setLineDirectiveMode] :=
  compileProgram_build_trace oracle options input request h1 h2

/-- Witness for C7 on the concrete fixtures. -/
theorem compileProgram_request_build_order_witness :
    (ShaderCompilerUtil.compileProgram sampleCompiler sampleOptionsCompute
      sampleInput sampleRequest).trace =
      extraArgsOps sampleRequest.compileArgs ++
      [RequestOp.setCodeGenTarget sampleInput.target,
       RequestOp.setTargetProfile
         (sampleCompiler.findProfile sampleInput.profile)] ++
      dialectDefineOps sampleInput.sourceLanguage ++
      passThroughOps sampleInput.passThrough ++
      [RequestOp.processCommandLineArguments sampleInput.args] ++
      [RequestOp.addTranslationUnit sampleInput.sourceLanguage,
       RequestOp.addTranslationUnitSourceString
         sampleCompiler.addTranslationUnitIndex
         sampleRequest.source.path] ++
      globalSpecOps sampleRequest.globalSpecializationArgs ++
      addEntryPointsOpsFrom sampleCompiler
        sampleCompiler.addTranslationUnitIndex
        sampleRequest.entryPointSpecializationArgs 0
        sampleRequest.entryPoints ++
      [RequestOp.setLineDirectiveMode] :=
  compileProgram_request_build_order sampleCompiler sampleOptionsCompute
    sampleInput sampleRequest (by decide) (by decide)

/-! ## C8: entry point index correspondence -/

theorem mismatch_not_mem_dialectAsserts (lang : SourceLanguage)
    (ee idx : Nat) :
    AssertId.entryPointIndexMismatch ee idx ∉ dialectAsserts lang := by
  cases lang <;> simp [dialectAsserts]

theorem mismatch_mem_epAsserts_of_drift (oracle : CompilerOracle)
    (options : Options) (eps : List EntryPoint) (start ee : Nat)
    (hlt : ee < eps.length)
    (hdrift : oracle.addEntryPointIndex (start + ee) ≠ start + ee) :
    AssertId.entryPointIndexMismatch (start + ee)
        (oracle.addEntryPointIndex (start + ee)) ∈
      addEntryPointsAssertsFrom oracle options start eps := by
  induction eps generalizing start ee with
  | nil => simp at hlt
  | cons x rest ih =>
    cases ee with
    | zero =>
      simp only [Nat.add_zero] at hdrift ⊢
      simp [addEntryPointsAssertsFrom, hdrift]
    | succ e2 =>
      have h2 : start + (e2 + 1) = (start + 1) + e2 := by omega
      rw [h2] at hdrift ⊢
      have := ih (start + 1) e2 (by simpa using hlt) hdrift
      simp [addEntryPointsAssertsFrom, this]

theorem mismatch_not_mem_epAsserts_of_match (oracle : CompilerOracle)
    (options : Options) (eps : List EntryPoint) (start : Nat)
    (hall : ∀ i, i < eps.length →
      oracle.addEntryPointIndex (start + i) = start + i)
    (ee idx : Nat) :
    AssertId.entryPointIndexMismatch ee idx ∉
      addEntryPointsAssertsFrom oracle options start eps := by
  induction eps generalizing start with
  | nil => simp [addEntryPointsAssertsFrom]
  | cons x rest ih =>
    have h0 : oracle.addEntryPointIndex start = start := by
      simpa using hall 0 (by simp)
    have hrest : ∀ i, i < rest.length →
        oracle.addEntryPointIndex (start + 1 + i) = start + 1 + i := by
      intro i hi
      have := hall (i + 1) (by simpa using Nat.succ_lt_succ hi)
      have he : start + (i + 1) = start + 1 + i := by omega
      rw [he] at this
      exact this
    simp only [addEntryPointsAssertsFrom, h0, if_pos rfl, List.mem_append]
    push_neg
    refine ⟨⟨?_, by simp⟩, ih (start + 1) hrest⟩
    split_ifs <;> simp

/-- Under the two argument-forwarding successes, an index-mismatch
assertion is recorded for the whole run exactly when the entry point loop
records it. -/
theorem compileProgram_mismatch_mem (oracle : CompilerOracle)
    (options : Options) (input : Input) (request : ShaderCompileRequest)
    (h1 : SLANG_FAILED (processExtraArgs oracle request.compileArgs) = false)
    (h2 : SLANG_FAILED (oracle.processCommandLineArguments input.args) = false)
    (ee idx : Nat) :
    AssertId.entryPointIndexMismatch ee idx ∈
      (ShaderCompilerUtil.compileProgram oracle options input
        request).asserts ↔
    AssertId.entryPointIndexMismatch ee idx ∈
      addEntryPointsAssertsFrom oracle options 0 request.entryPoints := by
  by_cases h3 : SLANG_FAILED oracle.compileResult = true
  · unfold ShaderCompilerUtil.compileProgram
    simp only [h1, h2, h3, Bool.false_eq_true, if_false, if_true]
    simp [List.mem_append, mismatch_not_mem_dialectAsserts]
  · rw [compileProgram_success_run oracle options input request h1 h2
      (by simpa using h3)]
    simp only [List.mem_append]
    constructor
    · rintro (((h | h) | h) | h)
      · exact absurd h (mismatch_not_mem_dialectAsserts _ _ _)
      · exact h
      · split_ifs at h <;> simp at h
      · obtain ⟨s, hs⟩ := kernelAsserts_shape _ _ h
        cases hs
    · intro h
      left; left; right
      exact h

theorem addEntryPointsOpsFrom_block_infix (oracle : CompilerOracle)
    (tu : Nat) (specArgs : List String) (eps : List EntryPoint)
    (start ee : Nat) (ep : EntryPoint) (h : eps[ee]? = some ep) :
    (RequestOp.addEntryPoint tu ep.name ep.slangStage ::
      setEntryPointSpecializationArgs
        (oracle.addEntryPointIndex (start + ee)) specArgs) <:+:
    addEntryPointsOpsFrom oracle tu specArgs start eps := by
  induction eps generalizing start ee with
  | nil => simp at h
  | cons x rest ih =>
    cases ee with
    | zero =>
      simp only [List.getElem?_cons_zero, Option.some.injEq] at h
      subst h
      simp only [Nat.add_zero]
      exact ⟨[], addEntryPointsOpsFrom oracle tu specArgs (start + 1) rest,
        by simp [addEntryPointsOpsFrom]⟩
    | succ e2 =>
      have h2 : start + (e2 + 1) = start + 1 + e2 := by omega
      rw [h2]
      have hrec := ih (start + 1) e2 (by simpa using h)
      refine hrec.trans (List.IsSuffix.isInfix
        ⟨RequestOp.addEntryPoint tu x.name x.slangStage ::
          setEntryPointSpecializationArgs (oracle.addEntryPointIndex start)
            specArgs, ?_⟩)
      simp [addEntryPointsOpsFrom]

/-- C8: for an explicit entry point list of length N, the run records no
index-mismatch assertion exactly when the compiler hands back the
caller-assigned indices 0..N-1 in declaration order (the builder asserts
each returned index equals the position), and each entry point addition is
immediately followed, contiguously in the build trace, by the
specialization-type-argument attachments for that entry point in declared
order. -/
theorem compileProgram_entry_point_indices (oracle : CompilerOracle)
    (options : Options) (input : Input) (request : ShaderCompileRequest)
    (h1 : SLANG_FAILED (processExtraArgs oracle request.compileArgs) = false)
    (h2 : SLANG_FAILED (oracle.processCommandLineArguments input.args) = false) :
    ((∀ ee, ee < request.entryPoints.length →
        oracle.addEntryPointIndex ee = ee) ↔
      (∀ ee idx, AssertId.entryPointIndexMismatch ee idx ∉
        (ShaderCompilerUtil.compileProgram oracle options input
          request).asserts)) ∧
    (∀ ee ep, request.entryPoints[ee]? = some ep →
      (RequestOp.addEntryPoint oracle.addTranslationUnitIndex ep.name
          ep.slangStage ::
        setEntryPointSpecializationArgs (oracle.addEntryPointIndex ee)
          request.entryPointSpecializationArgs) <:+:
      (ShaderCompilerUtil.compileProgram oracle options input
        request).trace) := by
  constructor
  · constructor
    · intro hall ee idx
      rw [compileProgram_mismatch_mem oracle options input request h1 h2]
      exact mismatch_not_mem_epAsserts_of_match oracle options
        request.entryPoints 0 (fun i hi => by simpa using hall i hi) ee idx
    · intro hno ee hee
      by_contra hdrift
      have hmem := mismatch_mem_epAsserts_of_drift oracle options
        request.entryPoints 0 ee hee (by simpa using hdrift)
      rw [Nat.zero_add] at hmem
      exact hno ee (oracle.addEntryPointIndex ee)
        ((compileProgram_mismatch_mem oracle options input request h1 h2 ee
          (oracle.addEntryPointIndex ee)).mpr hmem)
  · intro ee ep h
    rw [compileProgram_build_trace oracle options input request h1 h2]
    have hb := addEntryPointsOpsFrom_block_infix oracle
      oracle.addTranslationUnitIndex request.entryPointSpecializationArgs
      request.entryPoints 0 ee ep h
    rw [Nat.zero_add] at hb
    exact hb.trans (List.infix_append _ _ _)

/-- Witness for C8 on the concrete fixtures. -/
theorem compileProgram_entry_point_indices_witness :
    (RequestOp.addEntryPoint sampleCompiler.addTranslationUnitIndex
        "vertexMain" SlangStage.vertex ::
      setEntryPointSpecializationArgs (sampleCompiler.addEntryPointIndex 0)
        sampleRequest.entryPointSpecializationArgs) <:+:
    (ShaderCompilerUtil.compileProgram sampleCompiler sampleOptionsCompute
      sampleInput sampleRequest).trace :=
  (compileProgram_entry_point_indices sampleCompiler sampleOptionsCompute
    sampleInput sampleRequest (by decide) (by decide)).2 0
    { name := "vertexMain", slangStage := SlangStage.vertex } rfl

/-! ## C10: the shared per-entry-point specialization argument list -/

theorem specArgAttachments_append (t : Nat) (a b : List RequestOp) :
    specArgAttachments t (a ++ b) =
      specArgAttachments t a ++ specArgAttachments t b :=
  List.filterMap_append a b _

theorem specArgAttachments_cons_addEntryPoint (t tu : Nat) (n : String)
    (st : SlangStage) (l : List RequestOp) :
    specArgAttachments t (RequestOp.addEntryPoint tu n st :: l) =
      specArgAttachments t l := by
  simp [specArgAttachments, List.filterMap_cons]

theorem filterMap_some_snd (l : List (Nat × String)) :
    l.filterMap (fun p => some p.2) = l.map Prod.snd := by
  induction l with
  | nil => rfl
  | cons x xs ih => simp [List.filterMap_cons, ih]

theorem specArgAttachments_cons_setTypeName (t e slot : Nat) (v : String)
    (l : List RequestOp) :
    specArgAttachments t
      (RequestOp.setTypeNameForEntryPointExistentialTypeParam e slot v ::
        l) =
      (if e = t then [v] else []) ++ specArgAttachments t l := by
  by_cases h : e = t <;> simp [specArgAttachments, List.filterMap_cons, h]

theorem specArgAttachments_setArgsAux (t e : Nat)
    (l : List (Nat × String)) :
    specArgAttachments t (l.map fun p =>
      RequestOp.setTypeNameForEntryPointExistentialTypeParam e p.1 p.2) =
      if e = t then l.map Prod.snd else [] := by
  induction l with
  | nil => split_ifs <;> rfl
  | cons x xs ih =>
    rw [List.map_cons, specArgAttachments_cons_setTypeName, ih]
    by_cases h : e = t <;> simp [h]

theorem specArgAttachments_setArgs (t e : Nat) (args : List String) :
    specArgAttachments t (setEntryPointSpecializationArgs e args) =
      if e = t then args else [] := by
  have h := specArgAttachments_setArgsAux t e args.enum
  rw [List.enum_map_snd] at h
  exact h

theorem specArgAttachments_extraArgsOps (t : Nat) (args : List String) :
    specArgAttachments t (extraArgsOps args) = [] := by
  unfold extraArgsOps
  split_ifs <;> rfl

theorem specArgAttachments_dialectDefineOps (t : Nat)
    (lang : SourceLanguage) :
    specArgAttachments t (dialectDefineOps lang) = [] := by
  cases lang <;> rfl

theorem specArgAttachments_passThroughOps (t : Nat) (pt : PassThrough) :
    specArgAttachments t (passThroughOps pt) = [] := by
  unfold passThroughOps
  split_ifs <;> rfl

theorem specArgAttachments_globalSpecOps (t : Nat) (args : List String) :
    specArgAttachments t (globalSpecOps args) = [] := by
  simp only [specArgAttachments, globalSpecOps, List.filterMap_map]
  exact List.filterMap_eq_nil_iff.mpr fun a _ => rfl

theorem entryIndexMatch_shift (oracle : CompilerOracle)
    (eps : List EntryPoint) (x : EntryPoint) (start : Nat)
    (hidx : ∀ i, i < (x :: eps).length →
      oracle.addEntryPointIndex (start + i) = start + i) :
    ∀ i, i < eps.length →
      oracle.addEntryPointIndex (start + 1 + i) = start + 1 + i := by
  intro i hi
  have := hidx (i + 1) (by simpa using Nat.succ_lt_succ hi)
  have he : start + (i + 1) = start + 1 + i := by omega
  rwa [he] at this

theorem specArgAttachments_epOpsFrom_lt (oracle : CompilerOracle) (tu : Nat)
    (args : List String) (eps : List EntryPoint) (start t : Nat)
    (hidx : ∀ i, i < eps.length →
      oracle.addEntryPointIndex (start + i) = start + i)
    (ht : t < start) :
    specArgAttachments t (addEntryPointsOpsFrom oracle tu args start eps) =
      [] := by
  induction eps generalizing start with
  | nil => rfl
  | cons x rest ih =>
    have h0 : oracle.addEntryPointIndex start = start := by
      simpa using hidx 0 (by simp)
    rw [addEntryPointsOpsFrom, specArgAttachments_cons_addEntryPoint,
      specArgAttachments_append, specArgAttachments_setArgs, h0,
      if_neg (by omega),
      ih (start + 1) (entryIndexMatch_shift oracle rest x start hidx)
        (by omega)]
    rfl

theorem specArgAttachments_epOpsFrom (oracle : CompilerOracle) (tu : Nat)
    (args : List String) (eps : List EntryPoint) (start ee : Nat)
    (hidx : ∀ i, i < eps.length →
      oracle.addEntryPointIndex (start + i) = start + i)
    (hee : ee < eps.length) :
    specArgAttachments (start + ee)
      (addEntryPointsOpsFrom oracle tu args start eps) = args := by
  induction eps generalizing start ee with
  | nil => simp at hee
  | cons x rest ih =>
    have h0 : oracle.addEntryPointIndex start = start := by
      simpa using hidx 0 (by simp)
    have hrest := entryIndexMatch_shift oracle rest x start hidx
    rw [addEntryPointsOpsFrom, specArgAttachments_cons_addEntryPoint,
      specArgAttachments_append, specArgAttachments_setArgs, h0]
    cases ee with
    | zero =>
      rw [Nat.add_zero, if_pos rfl,
        specArgAttachments_epOpsFrom_lt oracle tu args rest (start + 1)
          start hrest (by omega)]
      simp
    | succ e2 =>
      rw [if_neg (by omega)]
      have he : start + (e2 + 1) = start + 1 + e2 := by omega
      rw [he, List.nil_append]
      exact ih (start + 1) e2 hrest (by simpa using hee)

/-- C10: the per-entry-point specialization type-arguments are one shared
list: on a run whose returned entry point indices match their positions,
every one of the N explicit entry points has exactly the request's
`entryPointSpecializationArgs` sequence attached to it, in the same
order. -/
theorem compileProgram_shared_spec_args (oracle : CompilerOracle)
    (options : Options) (input : Input) (request : ShaderCompileRequest)
    (h1 : SLANG_FAILED (processExtraArgs oracle request.compileArgs) = false)
    (h2 : SLANG_FAILED (oracle.processCommandLineArguments input.args) = false)
    (hidx : ∀ ee, ee < request.entryPoints.length →
      oracle.addEntryPointIndex ee = ee) :
    ∀ ee, ee < request.entryPoints.length →
      specArgAttachments ee
        (ShaderCompilerUtil.compileProgram oracle options input
          request).trace =
      request.entryPointSpecializationArgs := by
  intro ee hee
  rw [compileProgram_build_trace oracle options input request h1 h2]
  have hep := specArgAttachments_epOpsFrom oracle
    oracle.addTranslationUnitIndex request.entryPointSpecializationArgs
    request.entryPoints 0 ee (fun i hi => by simpa using hidx i hi) hee
  rw [Nat.zero_add] at hep
  simp only [specArgAttachments_append, specArgAttachments_extraArgsOps,
    specArgAttachments_dialectDefineOps, specArgAttachments_passThroughOps,
    specArgAttachments_globalSpecOps, hep]
  simp [specArgAttachments, List.filterMap_cons]

/-- Witness for C10 on the concrete fixtures. -/
theorem compileProgram_shared_spec_args_witness :
    specArgAttachments 0
      (ShaderCompilerUtil.compileProgram sampleCompiler sampleOptionsCompute
        sampleInput sampleRequest).trace =
      sampleRequest.entryPointSpecializationArgs :=
  compileProgram_shared_spec_args sampleCompiler sampleOptionsCompute
    sampleInput sampleRequest (by decide) (by decide) (fun ee hee => rfl) 0
    (by decide)
